import Mathlib

/-!
Verification development for the mad-notifier service (src/main.py).

The file shallowly embeds the anomaly-to-message pipeline of the
`AnomalyNotifier` class: required-field validation (`handle_anomaly`),
timestamp conversion and formatting (`_process_anomaly`,
`_format_datetime`), template rendering (`_init_templates`), MarkdownV2
escaping and truncation (`_prepare_telegram_text`), and the dispatch to
the Telegram endpoint (`_send_telegram_message`).  External I/O (the
outbound POST) is modelled by an explicit network oracle passed to the
functions that would perform it; everything else is pure and executable.
-/

namespace MadNotifier

/-! ## Python `datetime` model

`datetime.datetime` objects are modelled as a civil date-time plus an
optional UTC offset in minutes (`tz = none` models a naive datetime).
-/

/-- Model of a Python `datetime.datetime` value: civil fields plus an
optional UTC offset in minutes (`none` = naive, no `tzinfo`). -/
structure PyDatetime where
  year : Nat
  month : Nat
  day : Nat
  hour : Nat
  minute : Nat
  second : Nat
  tz : Option Int
deriving DecidableEq, Repr

/-- A timestamp-valued field of the inbound JSON object: either an
already-typed datetime, a string, or absent. -/
inductive TimeVal where
  | dt (d : PyDatetime)
  | str (s : String)
  | absent
deriving DecidableEq, Repr

/-- Read two decimal digits from the front of a character list. -/
def parse2 : List Char → Option (Nat × List Char)
  | a :: b :: rest =>
    if a.isDigit && b.isDigit then
      some ((a.toNat - 48) * 10 + (b.toNat - 48), rest)
    else none
  | _ => none

/-- Read four decimal digits from the front of a character list. -/
def parse4 : List Char → Option (Nat × List Char)
  | a :: b :: c :: d :: rest =>
    if a.isDigit && b.isDigit && c.isDigit && d.isDigit then
      some ((a.toNat - 48) * 1000 + (b.toNat - 48) * 100 + (c.toNat - 48) * 10 + (d.toNat - 48), rest)
    else none
  | _ => none

/-- Consume one expected character. -/
def expectCh (c : Char) : List Char → Option (List Char)
  | x :: rest => if x = c then some rest else none
  | _ => none

/-- Gregorian leap-year test. -/
def isLeap (y : Nat) : Bool :=
  (y % 4 == 0 && y % 100 != 0) || y % 400 == 0

/-- Days in a month of the proleptic Gregorian calendar. -/
def daysInMonth (y m : Nat) : Nat :=
  if m = 2 then (if isLeap y then 29 else 28)
  else if m = 4 ∨ m = 6 ∨ m = 9 ∨ m = 11 then 30
  else 31

/-- Parse an optional trailing UTC offset of the form `+HH:MM` or `-HH:MM`
(the forms produced by the service's `Z`-rewriting); an empty rest means a
naive datetime. -/
def parseOffset : List Char → Option (Option Int)
  | [] => some none
  | sgn :: rest =>
    if sgn = '+' ∨ sgn = '-' then
      match parse2 rest with
      | some (oh, r1) =>
        match expectCh ':' r1 with
        | some r2 =>
          match parse2 r2 with
          | some (om, r3) =>
            if r3 = [] ∧ oh < 24 ∧ om < 60 then
              some (some ((if sgn = '-' then (-1 : Int) else 1) * (oh * 60 + om)))
            else none
          | none => none
        | none => none
      | none => none
    else none

/-- Parse a time-of-day `HH:MM:SS` with the optional offset handled by
`parseOffset`. -/
def parseTime (cs : List Char) : Option (Nat × Nat × Nat × Option Int) :=
  match parse2 cs with
  | some (h, r1) =>
    match expectCh ':' r1 with
    | some r2 =>
      match parse2 r2 with
      | some (mi, r3) =>
        match expectCh ':' r3 with
        | some r4 =>
          match parse2 r4 with
          | some (s, r5) =>
            if h < 24 ∧ mi < 60 ∧ s < 60 then
              match parseOffset r5 with
              | some tz => some (h, mi, s, tz)
              | none => none
            else none
          | none => none
        | none => none
      | none => none
    | none => none
  | none => none

/-- Model of `datetime.fromisoformat` for the shapes the service feeds it:
`YYYY-MM-DD`, optionally followed by a one-character separator and
`HH:MM:SS`, optionally followed by a `±HH:MM` offset.  Any other string is
rejected (`none` models the `ValueError` raised by CPython). -/
def pyFromIso (s : String) : Option PyDatetime := do
  let (y, r1) ← parse4 s.data
  let r2 ← expectCh '-' r1
  let (m, r3) ← parse2 r2
  let r4 ← expectCh '-' r3
  let (d, r5) ← parse2 r4
  if 1 ≤ y ∧ 1 ≤ m ∧ m ≤ 12 ∧ 1 ≤ d ∧ d ≤ daysInMonth y m then
    match r5 with
    | [] => some ⟨y, m, d, 0, 0, 0, none⟩
    | _ :: timeCs =>
      let (h, mi, sec, tz) ← parseTime timeCs
      some ⟨y, m, d, h, mi, sec, tz⟩
  else none

/-- Day count of a civil date from the epoch 1970-01-01 (Gregorian). -/
def daysFromCivil (y m d : Int) : Int :=
  let y1 := if m ≤ 2 then y - 1 else y
  let era := y1.ediv 400
  let yoe := y1 - era * 400
  let mp := (m + 9).emod 12
  let doy := (153 * mp + 2).ediv 5 + d - 1
  let doe := yoe * 365 + yoe.ediv 4 - yoe.ediv 100 + doy
  era * 146097 + doe - 719468

/-- Civil date from a day count since 1970-01-01 (inverse of
`daysFromCivil`). -/
def civilFromDays (z0 : Int) : Int × Int × Int :=
  let z := z0 + 719468
  let era := z.ediv 146097
  let doe := z - era * 146097
  let yoe := (doe - doe.ediv 1460 + doe.ediv 36524 - doe.ediv 146096).ediv 365
  let y := yoe + era * 400
  let doy := doe - (365 * yoe + yoe.ediv 4 - yoe.ediv 100)
  let mp := (5 * doy + 2).ediv 153
  let d := doy - (153 * mp + 2).ediv 5 + 1
  let m := mp + (if mp < 10 then 3 else -9)
  (if m ≤ 2 then y + 1 else y, m, d)

/-- Decimal digit character for `n % 10`. -/
def digitChar (n : Nat) : Char := Char.ofNat (48 + n % 10)

/-- Two-digit zero-padded decimal rendering, as `%02d`/`%H`/`%M`/`%S`
produce for arguments below 100. -/
def pad2 (n : Nat) : String := String.mk [digitChar (n / 10), digitChar n]

/-- Four-digit zero-padded decimal rendering, as `%Y` produces for years
below 10000. -/
def pad4 (n : Nat) : String :=
  String.mk [digitChar (n / 1000), digitChar (n / 100), digitChar (n / 10), digitChar n]

/-- Model of `value.astimezone(timezone.utc)`: shift the civil fields by
the stored offset (offsets are whole minutes, seconds are unaffected). -/
def toUtc (p : PyDatetime) : PyDatetime :=
  let off := p.tz.getD 0
  let total : Int := daysFromCivil (p.year : Int) (p.month : Int) (p.day : Int) * 1440 + (p.hour : Int) * 60 + (p.minute : Int) - off
  let days := total.ediv 1440
  let rem := total.emod 1440
  let c := civilFromDays days
  { year := c.1.toNat, month := c.2.1.toNat, day := c.2.2.toNat,
    hour := (rem.ediv 60).toNat, minute := (rem.emod 60).toNat,
    second := p.second, tz := some 0 }

/-- Replace every occurrence of the character `pat` by the string `rep`,
as Python's `str.replace` does for a one-character pattern. -/
def replaceChar (pat : Char) (rep : List Char) : List Char → List Char
  | [] => []
  | c :: cs => (if c = pat then rep else [c]) ++ replaceChar pat rep cs

/-- String-level wrapper for `replaceChar`. -/
def pyReplace1 (s : String) (pat : Char) (rep : String) : String :=
  String.mk (replaceChar pat rep.data s.data)

/-- Model of the body of `_format_datetime` on a datetime object: assume
UTC when naive, convert to UTC, render with
`strftime('%Y\-%m\-%d %H:%M:%S UTC')` (the `\-` in the format string is a
literal backslash-dash, so each dash is already preceded by one
backslash), then apply the source's `replace` chain for `.`, `-`, `(`,
`)` — which inserts a second backslash before each dash. -/
def fmtEscaped (v : PyDatetime) : String :=
  let p := if v.tz = none then { v with tz := some 0 } else v
  let u := toUtc p
  let base := pad4 u.year ++ "\\-" ++ pad2 u.month ++ "\\-" ++ pad2 u.day ++ " "
    ++ pad2 u.hour ++ ":" ++ pad2 u.minute ++ ":" ++ pad2 u.second ++ " UTC"
  pyReplace1 (pyReplace1 (pyReplace1 (pyReplace1 base '.' "\\.") '-' "\\-") '(' "\\(") ')' "\\)"

/-- True when the string's final character is `Z` (Python
`value.endswith('Z')`). -/
def endsWithZ (s : String) : Bool :=
  match s.data.getLast? with
  | some c => c = 'Z'
  | none => false

/-- The string-to-datetime step of `_format_datetime`: rewrite a trailing
`Z` to `+00:00`, then `datetime.fromisoformat`. -/
def parseTs (s : String) : Option PyDatetime :=
  pyFromIso (if endsWithZ s then String.mk s.data.dropLast ++ "+00:00" else s)

/-- Model of `_format_datetime`: falsy values render as the placeholder
"не указано", unparsable strings as "неверный формат времени", and
datetimes through `fmtEscaped`. -/
def formatDatetime : TimeVal → String
  | .absent => "не указано"
  | .str s =>
    if s = "" then "не указано"
    else
      match parseTs s with
      | none => "неверный формат времени"
      | some p => fmtEscaped p
  | .dt p => fmtEscaped p

/-! ## Markup escaper (`_prepare_telegram_text`) -/

/-- The reserved MarkdownV2 character set of `_prepare_telegram_text`, in
source order; the backtick and the braces are written by code point. -/
def markdownChars : String :=
  "_*[]()~" ++ String.mk [Char.ofNat 96] ++ ">#+-=|" ++ String.mk [Char.ofNat 123, Char.ofNat 125] ++ ".!"

/-- Escape one character: a backslash is prepended exactly when the
character is in `markdownChars` (Python `char in markdown_chars`). -/
def escapeChar (c : Char) : String :=
  if markdownChars.data.contains c then String.mk ['\\', c] else String.mk [c]

/-- The escaping generator expression of `_prepare_telegram_text`. -/
def escapeText (t : String) : String :=
  String.join (t.data.map escapeChar)

/-- First `n` characters of a string, as Python slicing `s[:n]`. -/
def pyTake (s : String) (n : Nat) : String := String.mk (s.data.take n)

/-- The truncation marker appended by `_prepare_telegram_text`. -/
def truncMarker : String := "... [сообщение сокращено]"

/-- Model of `_prepare_telegram_text`: empty or whitespace-only input
(Python `not text or len(text.strip()) == 0`, i.e. every character is
whitespace) yields the empty string; otherwise the text is escaped, and
an escaped result longer than 4096 characters is cut to its first 4000
characters with the truncation marker appended. -/
def prepareTelegramText (text : String) : String :=
  if text.data.all Char.isWhitespace then ""
  else
    let escaped := escapeText text
    if 4096 < escaped.length then pyTake escaped 4000 ++ truncMarker
    else escaped

/-! ## Message renderer (`_init_templates`)

The two jinja templates are fixed constants; their rendering is embedded
as string concatenation.  Undefined optional fields render as the empty
string (jinja default `Undefined`), and `{% if average_anom_score %}`
uses Python truthiness, so both an absent score and a zero score omit
the score line.
-/

/-- Inbound anomaly event, as the parsed JSON object.  `none` on the four
required fields models an absent key (the handler checks key presence
only). -/
structure AnomalyData where
  action : Option String
  id : Option String
  anomaly_type : Option String
  metric_name : Option String
  description : Option String
  start_time : TimeVal
  end_time : TimeVal
  duration : Option String
  average_anom_score : Option Rat
deriving DecidableEq, Repr

/-- The 16-space indentation each template body line carries inside the
triple-quoted source string. -/
def ind16 : String := "                "

/-- A one-character backtick string (code point 96). -/
def btickS : String := String.mk [Char.ofNat 96]

/-- The label of the optional score line, including its trailing space. -/
def scoreLabel : String := "*Средний уровень аномальности:* "

/-- Jinja truthiness of `average_anom_score`: absent (`Undefined`) and
zero are both falsy. -/
def scoreTruthy (d : AnomalyData) : Bool :=
  match d.average_anom_score with
  | none => false
  | some q => if q = 0 then false else true

/-- Python `"%.2f" % q` on the score, modelled on rationals: round to
hundredths (`floor(q*100 + 1/2)`, computed on the numerator and
denominator) and print with exactly two digits after the decimal
point. -/
def format2f (q : Rat) : String :=
  let r : Int := (200 * q.num + (q.den : Int)).ediv (2 * (q.den : Int))
  let a : Nat := r.natAbs
  (if r < 0 then "-" else "") ++ Nat.repr (a / 100) ++ "." ++ pad2 (a % 100)

/-- The `{% if average_anom_score %}...{% endif %}` segment of both
templates: empty when the score is falsy, otherwise the labelled
2-decimal score in backticks. -/
def scoreSegment (d : AnomalyData) : String :=
  if scoreTruthy d then scoreLabel ++ btickS ++ format2f (d.average_anom_score.getD 0) ++ btickS
  else ""

/-- Rendering of the `start` template up to (and including) the 16-space
indentation of the conditional score line. -/
def renderStartBase (d : AnomalyData) : String :=
  "🚨 *Обнаружена аномалия* 🚨\n\n"
    ++ ind16 ++ "*Тип:* " ++ btickS ++ d.anomaly_type.getD "" ++ btickS ++ "\n"
    ++ ind16 ++ "*Метрика:* " ++ btickS ++ d.metric_name.getD "" ++ btickS ++ "\n"
    ++ ind16 ++ "*Время начала:* " ++ btickS ++ formatDatetime d.start_time ++ btickS ++ "\n"
    ++ ind16 ++ "*Описание:* " ++ d.description.getD "" ++ "\n\n"
    ++ ind16

/-- Rendering of the `start` template. -/
def renderStart (d : AnomalyData) : String := renderStartBase d ++ scoreSegment d

/-- Rendering of the `end` template up to (and including) the 16-space
indentation of the conditional score line. -/
def renderEndBase (d : AnomalyData) : String :=
  "✅ *Аномалия завершена* ✅\n\n"
    ++ ind16 ++ "*Тип:* " ++ btickS ++ d.anomaly_type.getD "" ++ btickS ++ "\n"
    ++ ind16 ++ "*Метрика:* " ++ btickS ++ d.metric_name.getD "" ++ btickS ++ "\n"
    ++ ind16 ++ "*Начало:* " ++ btickS ++ formatDatetime d.start_time ++ btickS ++ "\n"
    ++ ind16 ++ "*Конец:* " ++ btickS ++ formatDatetime d.end_time ++ btickS ++ "\n"
    ++ ind16 ++ "*Длительность:* " ++ d.duration.getD "" ++ "\n\n"
    ++ ind16

/-- Rendering of the `end` template. -/
def renderEnd (d : AnomalyData) : String := renderEndBase d ++ scoreSegment d

/-- Template phase: `'start'` or `'end'`. -/
inductive Phase where
  | startP
  | endP
deriving DecidableEq, Repr

/-- `self.templates[template_type].render(**anomaly_data)`. -/
def renderTemplate : Phase → AnomalyData → String
  | .startP => renderStart
  | .endP => renderEnd

/-! ## Notification dispatcher (`_send_telegram_message`)

The outbound POST is modelled by a network oracle of type
`PostRequest → NetResult`.  The notifier object state mirrors the
attributes `__init__` actually assigns: `self.bot_token`, `self.chat_id`,
and — crucially — no `self.config` attribute at all (`config = none`
models the missing attribute, whose access raises `AttributeError`).
-/

/-- The JSON body and URL of the single `sendMessage` POST. -/
structure PostRequest where
  url : String
  chat_id : String
  text : String
  parse_mode : String
  disable_web_page_preview : Bool
deriving DecidableEq, Repr

/-- Outcome of the outbound POST: an HTTP response carrying the Telegram
`ok` flag and optional `description`, or a connection-level failure
(`aiohttp.ClientError`). -/
inductive NetResult where
  | response (status : Nat) (ok : Bool) (description : Option String)
  | connError
deriving Repr

/-- The `config['mad-notifier']` dictionary `_send_telegram_message`
expects, with `.get` lookups modelled as `Option`. -/
structure TgConfig where
  bot_token : Option String
  chat_id : Option String
deriving DecidableEq, Repr

/-- The notifier object state after `__init__`: the attributes the
constructor assigns.  `config = none` records that `__init__` never
assigns `self.config`, so reading it raises `AttributeError`. -/
structure NotifierState where
  bot_token : Option String
  chat_id : Option String
  config : Option TgConfig
deriving DecidableEq, Repr

/-- Startup environment: `TELEGRAM_BOT_TOKEN` and `TELEGRAM_CHAT_ID`
(`os.getenv` results). -/
structure Env where
  telegram_bot_token : Option String
  telegram_chat_id : Option String
deriving DecidableEq, Repr

/-- Model of `__init__` + `_validate_config`: fail (`none`) when either
credential is unset or empty, otherwise build the object state.
`self.config` is never assigned. -/
def initNotifier (env : Env) : Option NotifierState :=
  match env.telegram_bot_token, env.telegram_chat_id with
  | some bt, some cid => if bt = "" ∨ cid = "" then none else some ⟨some bt, some cid, none⟩
  | _, _ => none

/-- Model of `_send_telegram_message`: returns the boolean result and the
POST request issued, if any.  The very first statement reads
`self.config['mad-notifier']`; when the attribute is missing the raised
`AttributeError` is caught by the final `except Exception` and the
function returns `False` without any POST. -/
def sendTelegramMessage (net : PostRequest → NetResult) (st : NotifierState) (text : String) :
    Bool × Option PostRequest :=
  match st.config with
  | none => (false, none)
  | some cfg =>
    match cfg.bot_token, cfg.chat_id with
    | some bt, some cid =>
      if bt = "" ∨ cid = "" then (false, none)
      else
        let safe := prepareTelegramText text
        if safe = "" then (false, none)
        else
          let req : PostRequest :=
            { url := "https://api.telegram.org/bot" ++ bt ++ "/sendMessage",
              chat_id := cid, text := safe, parse_mode := "MarkdownV2",
              disable_web_page_preview := true }
          match net req with
          | .response status ok _ => if status = 200 ∧ ok then (true, some req) else (false, some req)
          | .connError => (false, some req)
    | _, _ => (false, none)

/-! ## Pipeline (`_process_anomaly` and `handle_anomaly`) -/

/-- Conversion of one timestamp field in `_process_anomaly`: a string
value is rewritten with `replace('Z', '+00:00')` and fed to
`datetime.fromisoformat`; failure raises (modelled as `none`);
non-string values pass through. -/
def convertTime : TimeVal → Option TimeVal
  | .str s => (pyFromIso (String.mk (replaceChar 'Z' "+00:00".data s.data))).map TimeVal.dt
  | v => some v

/-- The two conversion statements at the top of `_process_anomaly`. -/
def convertEvent (d : AnomalyData) : Option AnomalyData := do
  let s ← convertTime d.start_time
  let e ← convertTime d.end_time
  some { d with start_time := s, end_time := e }

/-- Observable side effects of one `_process_anomaly` call. -/
structure Trace where
  processed : Bool
  converted : Bool
  template : Option Phase
  rendered : Option String
  sendInvoked : Option String
  post : Option PostRequest
  sendResult : Option Bool
deriving DecidableEq, Repr

/-- Trace of a request that never reached `_process_anomaly`. -/
def emptyTrace : Trace := ⟨false, false, none, none, none, none, none⟩

/-- Trace of a `_process_anomaly` call whose timestamp conversion raised:
the `except Exception` swallows the error before any rendering or
dispatch. -/
def abortTrace : Trace := ⟨true, false, none, none, none, none, none⟩

/-- Model of `_process_anomaly`: convert string timestamps (abort on
failure), pick the template — `'start'` only when `action == 'start'`,
anything else falls to `'end'` — render it, and dispatch. -/
def processAnomaly (net : PostRequest → NetResult) (st : NotifierState) (d : AnomalyData) : Trace :=
  match convertEvent d with
  | none => abortTrace
  | some d1 =>
    let ph := if d.action = some "start" then Phase.startP else Phase.endP
    let msg := renderTemplate ph d1
    let r := sendTelegramMessage net st msg
    { processed := true, converted := true, template := some ph, rendered := some msg,
      sendInvoked := some msg, post := r.2, sendResult := some r.1 }

/-- HTTP response body of `handle_anomaly`. -/
inductive RespBody where
  | success
  | err (msg : String)
deriving DecidableEq, Repr

/-- HTTP response of `handle_anomaly`. -/
structure HttpResponse where
  status : Nat
  body : RespBody
deriving DecidableEq, Repr

/-- Inbound request body: malformed JSON, or a parsed object. -/
inductive Body where
  | invalidJson
  | json (d : AnomalyData)

/-- The required-field loop of `handle_anomaly`: first absent key among
`action`, `id`, `anomaly_type`, `metric_name`, in source order.  Only key
presence is tested (`field not in data`). -/
def firstMissingField (d : AnomalyData) : Option String :=
  if d.action.isNone then some "action"
  else if d.id.isNone then some "id"
  else if d.anomaly_type.isNone then some "anomaly_type"
  else if d.metric_name.isNone then some "metric_name"
  else none

/-- Model of `handle_anomaly`: 400 for malformed JSON, 400 naming the
first missing required field, otherwise run `_process_anomaly` (which
swallows every internal failure) and answer 200. -/
def handleAnomaly (net : PostRequest → NetResult) (st : NotifierState) (b : Body) :
    HttpResponse × Trace :=
  match b with
  | .invalidJson => (⟨400, RespBody.err "Invalid JSON"⟩, emptyTrace)
  | .json d =>
    match firstMissingField d with
    | some f => (⟨400, RespBody.err ("Отсутствует обязательное поле: " ++ f)⟩, emptyTrace)
    | none => (⟨200, RespBody.success⟩, processAnomaly net st d)

/-! ## Shared concrete fixtures -/

/-- Network oracle that always fails at the connection level. -/
def net0 : PostRequest → NetResult := fun _ => NetResult.connError

/-- Network oracle whose endpoint answers 200 with `ok:false` and a
remote description. -/
def netReject : PostRequest → NetResult :=
  fun _ => NetResult.response 200 false (some "Bad Request: chat not found")

/-- Notifier state as `__init__` builds it from a configured
environment: credentials stored, `self.config` absent. -/
def st0 : NotifierState := ⟨some "token123", some "chat456", none⟩

/-- A fully configured startup environment. -/
def env0 : Env := ⟨some "token123", some "chat456"⟩

/-- Event whose four required keys are all present but whose `action` is
the empty string. -/
def c1Data : AnomalyData :=
  { action := some "", id := some "a-1", anomaly_type := some "spike",
    metric_name := some "cpu_usage", description := none,
    start_time := TimeVal.absent, end_time := TimeVal.absent,
    duration := none, average_anom_score := none }

/-- Event with the `action` key absent. -/
def c1Missing : AnomalyData := { c1Data with action := none }

/-- Valid `start` event carrying an unparsable timestamp string. -/
def c3Data : AnomalyData :=
  { c1Data with
    action := some "start", description := some "high load",
    start_time := TimeVal.str "not-a-date" }

/-- Valid `start` event with a well-formed `Z`-suffixed timestamp. -/
def c4Data : AnomalyData := { c3Data with start_time := TimeVal.str "2024-01-15T10:30:00Z" }

/-- `c4Data` after the timestamp conversion of `_process_anomaly`. -/
def c4DataConv : AnomalyData :=
  { c4Data with start_time := TimeVal.dt ⟨2024, 1, 15, 10, 30, 0, some 0⟩ }

/-- Valid event whose `average_anom_score` is present and equal to 0. -/
def c9Data : AnomalyData := { c1Data with action := some "start", average_anom_score := some 0 }

/-- Valid event with a present nonzero score. -/
def c9W : AnomalyData := { c1Data with average_anom_score := some 3 }

/-- Valid event whose `action` is outside the `start|end` enum. -/
def c10Data : AnomalyData := { c1Data with action := some "bogus" }

/-! ## Helper predicates and lemmas -/

/-- True when `pat` is an initial segment of `s`. -/
def startsWithL : List Char → List Char → Bool
  | [], _ => true
  | _ :: _, [] => false
  | p :: ps, c :: cs => p = c && startsWithL ps cs

/-- True when `pat` occurs contiguously somewhere in `s`. -/
def occursInL (pat : List Char) : List Char → Bool
  | [] => startsWithL pat []
  | c :: cs => startsWithL pat (c :: cs) || occursInL pat cs

/-- Substring occurrence on strings. -/
def occursIn (pat s : String) : Bool := occursInL pat.data s.data

/-- Three backslashes followed by a dash — the shape every date dash
takes after `_format_datetime` pre-escaping plus
`_prepare_telegram_text` re-escaping. -/
def tripleEscDash : String := "\\\\\\-"

/-- Length of a concatenation of strings. -/
theorem strLenAppend (a b : String) : (a ++ b).length = a.length + b.length :=
  String.length_append a b

/-! ## Claim theorems -/

set_option maxRecDepth 16000

/-- C1, counterexample: an event whose four required keys are all present
but whose `action` is the empty string is NOT rejected — `handle_anomaly`
answers 200 and `_process_anomaly` runs, contradicting the claim that a
present-but-empty required field yields 400 with no side effect. -/
theorem c1_counterexample :
    (handleAnomaly net0 st0 (Body.json c1Data)).1.status = 200 ∧
    (handleAnomaly net0 st0 (Body.json c1Data)).2.processed = true := by
  exact ⟨by decide, by decide⟩

/-- C1, amended: for every request body missing one of the required keys
`action`, `id`, `anomaly_type`, `metric_name`, the handler answers
HTTP 400 naming the first missing field (in source order) and performs no
side effect — `_process_anomaly`, rendering, escaping and dispatch are
never invoked.  Present-but-empty fields are not rejected (key presence
only is checked). -/
theorem c1_amended (net : PostRequest → NetResult) (st : NotifierState) (d : AnomalyData)
    (f : String) (h : firstMissingField d = some f) :
    handleAnomaly net st (Body.json d) =
      (⟨400, RespBody.err ("Отсутствует обязательное поле: " ++ f)⟩, emptyTrace) := by
  simp [handleAnomaly, h]

/-- C1, witness: the amended theorem applied to a body whose `action` key
is absent. -/
theorem c1_witness :
    handleAnomaly net0 st0 (Body.json c1Missing) =
      (⟨400, RespBody.err ("Отсутствует обязательное поле: " ++ "action")⟩, emptyTrace) :=
  c1_amended net0 st0 c1Missing "action" (by decide)

/-- C2, counterexample: `_format_datetime` on `"2024-01-15T10:30:00Z"`
does not produce the claimed plain string `"2024-01-15 10:30:00 UTC"`
(the code pre-escapes the dashes). -/
theorem c2_counterexample :
    formatDatetime (TimeVal.str "2024-01-15T10:30:00Z") ≠ "2024-01-15 10:30:00 UTC" := by
  decide

/-- C2, amended: `"2024-01-15T10:30:00Z"` and
`"2024-01-15T10:30:00+00:00"` normalize to the same UTC instant, and both
format to the 23-character string `2024\\-01\\-15 10:30:00 UTC` — the
pattern `YYYY-MM-DD HH:MM:SS UTC` with every dash preceded by two
backslashes (one from the literal `\-` in the `strftime` format string,
one added by the `replace("-", "\-")` chain); an instant without a
timezone is assumed UTC. -/
theorem c2_amended :
    parseTs "2024-01-15T10:30:00Z" = parseTs "2024-01-15T10:30:00+00:00" ∧
    parseTs "2024-01-15T10:30:00Z" = some ⟨2024, 1, 15, 10, 30, 0, some 0⟩ ∧
    formatDatetime (TimeVal.str "2024-01-15T10:30:00Z") = "2024\\\\-01\\\\-15 10:30:00 UTC" ∧
    formatDatetime (TimeVal.str "2024-01-15T10:30:00+00:00") = "2024\\\\-01\\\\-15 10:30:00 UTC" ∧
    ∀ p : PyDatetime, p.tz = none → fmtEscaped p = fmtEscaped { p with tz := some 0 } := by
  refine ⟨by decide, by decide, by decide, by decide, ?_⟩
  intro p h
  simp [fmtEscaped, h]

/-- C2, witness: the naive-assumed-UTC clause of the amended theorem at a
concrete naive datetime. -/
theorem c2_witness :
    fmtEscaped ⟨2024, 1, 15, 10, 30, 0, none⟩ = fmtEscaped ⟨2024, 1, 15, 10, 30, 0, some 0⟩ :=
  c2_amended.2.2.2.2 ⟨2024, 1, 15, 10, 30, 0, none⟩ rfl

/-- C3, code bug: on a validated event whose `start_time` is the
unparsable string "not-a-date", the eager `datetime.fromisoformat` call
at the top of `_process_anomaly` raises, its blanket `except` swallows
the error, and the pipeline aborts — nothing is rendered, escaped or
dispatched, contradicting the specified soft failure in which the field
degrades to a placeholder and the pipeline completes.  Only the 200
answer to the HTTP caller matches the claim. -/
theorem c3_code_divergence :
    (handleAnomaly net0 st0 (Body.json c3Data)).1 = ⟨200, RespBody.success⟩ ∧
    (handleAnomaly net0 st0 (Body.json c3Data)).2 = abortTrace ∧
    abortTrace.rendered = none ∧ abortTrace.sendInvoked = none ∧ abortTrace.post = none := by
  exact ⟨by decide, by decide, rfl, rfl, rfl⟩

/-- C4, code bug: in a single pipeline run over a valid `start` event,
the date dashes of the rendered message are escaped twice —
`_format_datetime` emits them already double-backslashed and
`_prepare_telegram_text` escapes them again — so the escaped output
contains a dash preceded by three backslashes, contradicting the claim
that every reserved character ends up preceded by exactly one backslash
and that escaping is never re-applied to already-escaped text. -/
theorem c4_code_divergence :
    convertEvent c4Data = some c4DataConv ∧
    (processAnomaly net0 st0 c4Data).rendered = some (renderStart c4DataConv) ∧
    prepareTelegramText (renderStart c4DataConv) ≠ "" ∧
    occursIn tripleEscDash (prepareTelegramText (renderStart c4DataConv)) = true := by
  exact ⟨by decide, by decide, by decide, by decide⟩

/-- C5, counterexample: for the whitespace-only input " " the escaped
output is " " (1 character, well under 4096), yet `_prepare_telegram_text`
does not return it unchanged — the whitespace guard maps it to the empty
string, contradicting the claim as stated for every input text. -/
theorem c5_counterexample :
    prepareTelegramText " " = "" ∧ escapeText " " = " " ∧ (escapeText " ").length ≤ 4096 := by
  exact ⟨by decide, by decide, by decide⟩

/-- C5, amended: for every input text containing at least one
non-whitespace character, if the escaped output exceeds 4096 characters
the function returns exactly the first 4000 characters of the
already-escaped string with the truncation marker appended (total length
4000 plus the marker length, and escaping not re-applied), and if the
escaped output is at most 4096 characters it is returned unchanged; the
result never exceeds 4096 characters. -/
theorem c5_amended (text : String) (h : text.data.all Char.isWhitespace = false) :
    (4096 < (escapeText text).length →
      prepareTelegramText text = pyTake (escapeText text) 4000 ++ truncMarker ∧
      (prepareTelegramText text).length = 4000 + truncMarker.length) ∧
    ((escapeText text).length ≤ 4096 → prepareTelegramText text = escapeText text) ∧
    (prepareTelegramText text).length ≤ 4096 := by
  have hp : prepareTelegramText text =
      if 4096 < (escapeText text).length then pyTake (escapeText text) 4000 ++ truncMarker
      else escapeText text := by
    simp [prepareTelegramText, h]
  by_cases hlen : 4096 < (escapeText text).length
  · have he : prepareTelegramText text = pyTake (escapeText text) 4000 ++ truncMarker := by
      rw [hp, if_pos hlen]
    have hdlen : 4096 < (escapeText text).data.length := hlen
    have htake : (pyTake (escapeText text) 4000).length = 4000 := by
      show ((escapeText text).data.take 4000).length = 4000
      rw [List.length_take]
      omega
    have hll : (prepareTelegramText text).length = 4000 + truncMarker.length := by
      rw [he, strLenAppend, htake]
    have hm : truncMarker.length = 25 := by decide
    exact ⟨fun _ => ⟨he, hll⟩, fun hle => absurd hlen (by omega), by omega⟩
  · have he : prepareTelegramText text = escapeText text := by rw [hp, if_neg hlen]
    have hle : (escapeText text).length ≤ 4096 := by omega
    exact ⟨fun hgt => absurd hgt hlen, fun _ => he, by rw [he]; omega⟩

/-- C5, witness: the amended theorem applied to the short input "ok",
which stays on the unchanged branch. -/
theorem c5_witness :
    prepareTelegramText "ok" = escapeText "ok" ∧ escapeText "ok" = "ok" :=
  ⟨(c5_amended "ok" (by decide)).2.1 (by decide), by decide⟩

/-- C6: every empty or whitespace-only text escapes to the empty string,
and the dispatcher then drops the message — no POST request is issued and
`_send_telegram_message` reports failure, for every network behaviour and
every notifier state. -/
theorem c6_empty_drop (text : String) (h : text.data.all Char.isWhitespace = true) :
    prepareTelegramText text = "" ∧
    ∀ (net : PostRequest → NetResult) (st : NotifierState),
      sendTelegramMessage net st text = (false, none) := by
  have hp : prepareTelegramText text = "" := by simp [prepareTelegramText, h]
  refine ⟨hp, fun net st => ?_⟩
  obtain ⟨bt, cid, cfg⟩ := st
  cases cfg with
  | none => rfl
  | some c =>
    obtain ⟨cbt, ccid⟩ := c
    cases cbt with
    | none => rfl
    | some b =>
      cases ccid with
      | none => rfl
      | some cc =>
        simp only [sendTelegramMessage]
        split
        · rfl
        · simp [hp]

/-- C6, witness: the theorem applied to the two-space input, under the
connection-failing oracle and the default state. -/
theorem c6_witness :
    prepareTelegramText "  " = "" ∧ sendTelegramMessage net0 st0 "  " = (false, none) :=
  ⟨(c6_empty_drop "  " (by decide)).1, (c6_empty_drop "  " (by decide)).2 net0 st0⟩

/-- C7: for every event that passes required-field validation, the HTTP
caller receives 200 with the success body, whatever the notifier state
and whatever the messaging endpoint does (non-200, `ok:false`,
connection failure, anything): `_process_anomaly` absorbs every
downstream failure. -/
theorem c7_decoupling (net : PostRequest → NetResult) (st : NotifierState) (d : AnomalyData)
    (h : firstMissingField d = none) :
    (handleAnomaly net st (Body.json d)).1 = ⟨200, RespBody.success⟩ := by
  simp [handleAnomaly, h]

/-- C7, witness: a valid event dispatched against an endpoint that
answers 200 with `ok:false` still yields 200 success to the caller. -/
theorem c7_witness :
    (handleAnomaly netReject st0 (Body.json c4Data)).1 = ⟨200, RespBody.success⟩ :=
  c7_decoupling netReject st0 c4Data (by decide)

/-- C8, code bug: even when startup configuration succeeds (bot token
and chat id both set), `_send_telegram_message` can never issue a POST:
it reads `self.config['mad-notifier']`, but `__init__` stores the
credentials in `self.bot_token` / `self.chat_id` and never assigns
`self.config`, so every call raises `AttributeError`, which the blanket
`except` converts to a `False` result with no request sent — for every
message text and every network behaviour. -/
theorem c8_no_post :
    initNotifier env0 = some st0 ∧ st0.config = none ∧
    ∀ (net : PostRequest → NetResult) (text : String),
      sendTelegramMessage net st0 text = (false, none) := by
  exact ⟨by decide, rfl, fun net text => rfl⟩

/-- Shape of `format2f` output: some string followed by a dot and a
two-character zero-padded fraction below 100. -/
theorem format2f_shape (q : Rat) :
    ∃ pre k, k < 100 ∧ format2f q = pre ++ "." ++ pad2 k ∧ (pad2 k).length = 2 := by
  refine ⟨_, _, Nat.mod_lt _ (by norm_num), rfl, rfl⟩

/-- C9, counterexample: an event whose `average_anom_score` is present
and equal to 0 renders WITHOUT the score line — jinja
`{% if average_anom_score %}` uses Python truthiness, so a present zero
score is dropped, contradicting the claimed presence-iff condition. -/
theorem c9_counterexample :
    c9Data.average_anom_score.isSome = true ∧
    occursIn "Средний уровень аномальности" (renderStart c9Data) = false := by
  exact ⟨rfl, by decide⟩

/-- C9, amended: both renders end with the conditional score segment;
that segment is empty exactly when `average_anom_score` is absent OR
zero (jinja truthiness), and when the score is truthy the segment is the
label plus the score formatted with exactly two digits after the decimal
point. -/
theorem c9_amended (d : AnomalyData) :
    renderStart d = renderStartBase d ++ scoreSegment d ∧
    renderEnd d = renderEndBase d ++ scoreSegment d ∧
    (scoreSegment d = "" ↔ scoreTruthy d = false) ∧
    (scoreTruthy d = true →
      scoreSegment d = scoreLabel ++ btickS ++ format2f (d.average_anom_score.getD 0) ++ btickS) ∧
    (∃ pre k, k < 100 ∧ format2f (d.average_anom_score.getD 0) = pre ++ "." ++ pad2 k ∧
      (pad2 k).length = 2) := by
  refine ⟨rfl, rfl, ?_, ?_, format2f_shape _⟩
  · cases hT : scoreTruthy d with
    | false => simp [scoreSegment, hT]
    | true =>
      simp only [scoreSegment, hT, if_true]
      constructor
      · intro hEq
        have hL := congrArg String.length hEq
        rw [strLenAppend, strLenAppend, strLenAppend] at hL
        have h0 : 0 < scoreLabel.length := by decide
        have hz : ("" : String).length = 0 := rfl
        omega
      · intro hFalse
        exact absurd hFalse (by simp)
  · intro hT
    simp [scoreSegment, hT]

/-- C9, witness: the amended theorem at an event with the present
nonzero score 3, whose segment is the label plus "3.00". -/
theorem c9_witness :
    scoreTruthy c9W = true ∧
    scoreSegment c9W = scoreLabel ++ btickS ++ format2f (c9W.average_anom_score.getD 0) ++ btickS ∧
    format2f (c9W.average_anom_score.getD 0) = "3.00" :=
  ⟨by decide, (c9_amended c9W).2.2.2.1 (by decide), by decide⟩

/-- C10: for every validated event whose `action` differs from the
literal "start" and whose timestamps convert, `_process_anomaly` selects
the `end` template — the action value is never checked against the
`start|end` enum — renders it, hands the rendered end-phase message to
the dispatcher, and the HTTP caller receives 200 success rather than a
rejection. -/
theorem c10_enum_not_checked (net : PostRequest → NetResult) (st : NotifierState)
    (d d1 : AnomalyData) (hv : firstMissingField d = none)
    (ha : d.action ≠ some "start") (hc : convertEvent d = some d1) :
    (processAnomaly net st d).template = some Phase.endP ∧
    (processAnomaly net st d).rendered = some (renderEnd d1) ∧
    (processAnomaly net st d).sendInvoked = some (renderEnd d1) ∧
    (handleAnomaly net st (Body.json d)).1 = ⟨200, RespBody.success⟩ := by
  have hpa : processAnomaly net st d =
      { processed := true, converted := true, template := some Phase.endP,
        rendered := some (renderEnd d1), sendInvoked := some (renderEnd d1),
        post := (sendTelegramMessage net st (renderEnd d1)).2,
        sendResult := some (sendTelegramMessage net st (renderEnd d1)).1 } := by
    simp [processAnomaly, hc, ha, renderTemplate]
  exact ⟨by rw [hpa], by rw [hpa], by rw [hpa], by simp [handleAnomaly, hv]⟩

/-- C10, witness: the theorem applied to an event with the off-enum
action "bogus" (timestamps absent, so conversion is the identity). -/
theorem c10_witness :
    (processAnomaly net0 st0 c10Data).template = some Phase.endP ∧
    (processAnomaly net0 st0 c10Data).rendered = some (renderEnd c10Data) ∧
    (handleAnomaly net0 st0 (Body.json c10Data)).1 = ⟨200, RespBody.success⟩ := by
  have h := c10_enum_not_checked net0 st0 c10Data c10Data (by decide) (by decide) (by decide)
  exact ⟨h.1, h.2.1, h.2.2.2⟩

end MadNotifier
